import Mathlib

/-!
Verification of the attack-evaluation and location-optimization subsystem of
the starter-kit strategy (src/python-algo/algo_strategy.py).

The game engine collaborators (map, pathfinder, stat table, resource ledger)
are modelled as a record of query functions `GameState`; the strategy code
itself (gain_of_attack, attempt_to_attack, total_target_health,
least_damage_spawn_location, filter_blocked_locations) is translated
line-by-line from the Python source.  Numbers are exact rationals.  Python
runtime faults that the strategy can actually hit (TypeError from comparing
None, ZeroDivisionError, UnboundLocalError) are modelled with an Except monad;
functions that can fall off the end and return None return Option.
-/

/-- A board location, the Python list [x, y]. -/
abbrev Cell : Type := ℤ × ℤ

/-- One unit present on a map square, as far as total_target_health looks at it:
its owner (player_index, 0 = self, 1 = opponent) and its current health. -/
structure GameUnitData where
  player_index : ℕ
  health : ℚ
  deriving DecidableEq

/-- The immutable per-type stats of gamelib.GameUnit(unit_type, config) that the
strategy reads: health, attackRange, speed (cells per sub-frame), damage against
mobile units (damage_f) and the per-shot damage value damage_i. -/
structure UnitStats where
  health : ℚ
  attackRange : ℚ
  speed : ℚ
  damage_f : ℚ
  damage_i : ℚ
  deriving DecidableEq

/-- The unit-type shorthands the strategy uses. -/
inductive UnitTypeId where
  | WALL | FACTORY | TURRET | SCOUT | DEMOLISHER | INTERCEPTOR
  deriving DecidableEq

/-- The external game-state / game-map collaborator, reduced to the queries the
verified code performs.  get_attackers_count location is the length of
game_state.get_attackers(location, 0). -/
structure GameState where
  find_path_to_edge : Cell → List Cell
  get_attackers_count : Cell → ℕ
  get_locations_in_range : Cell → ℚ → List Cell
  game_map_at : Cell → List GameUnitData
  unit_stats : UnitTypeId → UnitStats
  number_affordable : UnitTypeId → ℕ
  type_cost_MP : UnitTypeId → ℚ
  bottom_left_edge : List Cell
  bottom_right_edge : List Cell
  contains_stationary_unit : Cell → Bool

/-- Strategy constant weight_damage_enemy = 1 (on_game_start). -/
def weight_damage_enemy : ℚ := 1

/-- Strategy constant weight_score = 12 (on_game_start). -/
def weight_score : ℚ := 12

/-- Strategy constant minGainPerSPSpent = 10 (on_game_start). -/
def minGainPerSPSpent : ℚ := 10

/-- total_target_health(game_state, location, unit_range): sum of the health of
every unit within range whose player_index is not 0 (own units are skipped). -/
def total_target_health (game_state : GameState) (location : Cell)
    (unit_range : ℚ) : ℚ :=
  ((game_state.get_locations_in_range location unit_range).map (fun loc =>
    (((game_state.game_map_at loc).filter
        (fun enemy_unit => enemy_unit.player_index ≠ 0)).map
      GameUnitData.health).sum)).sum

/-- One sub-frame of gain_of_attack's inner loop (lines 182-185 of the source):
accumulate min(damage_f * remaining_units, total target health in range) into
damage_dealt, subtract num_turrets * turret_damage from total_heath and
recompute remaining_units = total_heath // unit_health + 1 from the updated
total_heath.  State is (damage_dealt, total_heath, remaining_units).
Python // is floor division, hence the Int.floor.  The source never runs this
with unit health 0 (the config healths are positive; every theorem below that
needs it carries 0 < health as a hypothesis). -/
def gain_step (game_state : GameState) (unit_class : UnitStats)
    (turret_damage : ℚ) (path_location : Cell) (num_turrets : ℕ)
    (st : ℚ × ℚ × ℚ) : ℚ × ℚ × ℚ :=
  let total_damage := unit_class.damage_f * st.2.2
  let damage_dealt := st.1 +
    min total_damage (total_target_health game_state path_location unit_class.attackRange)
  let total_heath := st.2.1 - (num_turrets : ℚ) * turret_damage
  let remaining_units := (⌊total_heath / unit_class.health⌋ : ℚ) + 1
  (damage_dealt, total_heath, remaining_units)

/-- The body of gain_of_attack from the path on (lines 172-186).  The Python
for-loop over the path cells contains an unconditional return at the end of its
first iteration, so only the head of the path is ever simulated; an empty path
falls off the end of the function and returns None.  int(1/speed) truncates
toward zero, which on the nonnegative values that arise is Int.toNat of the
floor (and on a negative value both give an empty range of sub-frames); the
mobile-unit speeds are positive, a speed of zero would raise in Python and is
excluded by a positivity hypothesis in every theorem that depends on the
sub-frame count.
gain_sim names the inner-loop state after k sub-frames, starting from
damage_dealt = 0, total_heath = unit_health * number_units and
remaining_units = number_units (lines 172, 177, 178). -/
def gain_sim (game_state : GameState) (unit_class : UnitStats)
    (turret_damage : ℚ) (path_location : Cell) (num_turrets : ℕ)
    (number_units : ℕ) (k : ℕ) : ℚ × ℚ × ℚ :=
  (gain_step game_state unit_class turret_damage path_location num_turrets)^[k]
    (0, unit_class.health * number_units, (number_units : ℚ))

def gain_of_attack_path (game_state : GameState) (unit_class : UnitStats)
    (turret_damage : ℚ) (number_units : ℕ) (path : List Cell) : Option ℚ :=
  match path with
  | [] => none
  | path_location :: _ =>
      let num_turrets := game_state.get_attackers_count path_location
      let frames := Int.toNat ⌊1 / unit_class.speed⌋
      let st := gain_sim game_state unit_class turret_damage path_location
        num_turrets number_units frames
      some (st.1 * weight_damage_enemy + st.2.2 * weight_score)

/-- gain_of_attack(game_state, number_units, unit_type, location), lines
167-186:  path = find_path_to_edge(location), turret_damage from the TURRET
stats, unit_class from the attacking type's stats, then the per-cell /
per-sub-frame simulation above. -/
def gain_of_attack (game_state : GameState) (number_units : ℕ)
    (unit_type : UnitTypeId) (location : Cell) : Option ℚ :=
  let path := game_state.find_path_to_edge location
  let turret_damage := (game_state.unit_stats .TURRET).damage_i
  let unit_class := game_state.unit_stats unit_type
  gain_of_attack_path game_state unit_class turret_damage number_units path

/-- A concrete environment for witnesses: two open edge cells, each its own
one-cell path, no turrets anywhere, nothing on the map, and the usual starter
stats (scout 15 hp speed 1, demolisher 5 hp speed 1/2, interceptor 40 hp speed
1/4, turret per-shot damage 6). -/
def envA : GameState where
  find_path_to_edge := fun location => [location]
  get_attackers_count := fun _ => 0
  get_locations_in_range := fun _ _ => []
  game_map_at := fun _ => []
  unit_stats := fun t =>
    match t with
    | .WALL => ⟨60, 0, 0, 0, 0⟩
    | .FACTORY => ⟨30, 0, 0, 0, 0⟩
    | .TURRET => ⟨75, 7/2, 0, 6, 6⟩
    | .SCOUT => ⟨15, 7/2, 1, 2, 2⟩
    | .DEMOLISHER => ⟨5, 9/2, 1/2, 8, 8⟩
    | .INTERCEPTOR => ⟨40, 9/2, 1/4, 20, 0⟩
  number_affordable := fun t =>
    match t with
    | .SCOUT => 5
    | .DEMOLISHER => 2
    | .INTERCEPTOR => 3
    | _ => 0
  type_cost_MP := fun t =>
    match t with
    | .SCOUT => 1
    | .DEMOLISHER => 3
    | .INTERCEPTOR => 1
    | _ => 0
  bottom_left_edge := [((3 : ℤ), (10 : ℤ))]
  bottom_right_edge := [((5 : ℤ), (8 : ℤ))]
  contains_stationary_unit := fun _ => false

/-- The Python runtime faults that attempt_to_attack can actually raise:
comparing the None returned by gain_of_attack on an empty path against a
number, dividing by a zero denominator, and reading a local variable that was
never assigned because the candidate loop ran zero times. -/
inductive PyErr where
  | typeError | zeroDivisionError | unboundLocalError
  deriving DecidableEq

deriving instance DecidableEq for Except

/-- Python division: raises ZeroDivisionError on a zero denominator. -/
def pyDiv (a b : ℚ) : Except PyErr ℚ :=
  if b = 0 then .error .zeroDivisionError else .ok (a / b)

/-- Reading a Python local that may still be unbound (here modelled as an
Option): raises UnboundLocalError when it was never assigned. -/
def pyLoad {α : Type} (x : Option α) : Except PyErr α :=
  match x with
  | none => .error .unboundLocalError
  | some a => .ok a

/-- One game_state.attempt_spawn(unit_type, location, num) call issued by the
strategy (the external spawn surface; recorded, not simulated). -/
structure SpawnCommand where
  unit_type : UnitTypeId
  location : Cell
  num : ℕ
  deriving DecidableEq

/-- The local variables of attempt_to_attack's candidate loop (lines 115-121).
scout_deploy_location and demolisher_deploy_location start out unbound in the
Python source, hence Option; the interceptor slots are initialised to the
placeholder [[0,0],[0,0]]. -/
structure AttackSearchState where
  scout_gain : ℚ
  scout_deploy_location : Option Cell
  demolisher_gain : ℚ
  demolisher_deploy_location : Option Cell
  interceptor_gains : ℚ × ℚ
  interceptor_deploy_locations : Cell × Cell
  deriving DecidableEq

/-- The loop state before the first iteration (lines 115-121). -/
def attack_search_init : AttackSearchState where
  scout_gain := -999
  scout_deploy_location := none
  demolisher_gain := -999
  demolisher_deploy_location := none
  interceptor_gains := (-999, -999)
  interceptor_deploy_locations := (((0 : ℤ), (0 : ℤ)), ((0 : ℤ), (0 : ℤ)))

/-- Lines 132-134: keep the strictly better scout candidate. -/
def scout_update (gain_location_scout : ℚ) (location : Cell)
    (st : AttackSearchState) : AttackSearchState :=
  if st.scout_gain < gain_location_scout then
    { st with scout_gain := gain_location_scout,
              scout_deploy_location := some location }
  else st

/-- Lines 135-137: keep the strictly better demolisher candidate. -/
def demolisher_update (gain_location_demolisher : ℚ) (location : Cell)
    (st : AttackSearchState) : AttackSearchState :=
  if st.demolisher_gain < gain_location_demolisher then
    { st with demolisher_gain := gain_location_demolisher,
              demolisher_deploy_location := some location }
  else st

/-- Lines 138-145: the ad hoc top-two tracking for the interceptor.  A strictly
better candidate shifts slot 0 into slot 1; otherwise a candidate strictly
better than slot 1 replaces slot 1. -/
def interceptor_update (gain_location_interceptor : ℚ) (location : Cell)
    (st : AttackSearchState) : AttackSearchState :=
  if st.interceptor_gains.1 < gain_location_interceptor then
    { st with
        interceptor_gains := (gain_location_interceptor, st.interceptor_gains.1),
        interceptor_deploy_locations :=
          (location, st.interceptor_deploy_locations.1) }
  else if st.interceptor_gains.2 < gain_location_interceptor then
    { st with
        interceptor_gains := (st.interceptor_gains.1, gain_location_interceptor),
        interceptor_deploy_locations :=
          (st.interceptor_deploy_locations.1, location) }
  else st

/-- One iteration of the candidate loop (lines 128-145).  The three gains are
computed first (pure calls); each Python comparison "gain > best" then raises
TypeError when the gain is None (empty path), which the match arms model in
source order. -/
def attack_search_step (game_state : GameState)
    (max_scout_spawn max_demolisher_spawn max_interceptor_spawn : ℕ)
    (st : AttackSearchState) (location : Cell) :
    Except PyErr AttackSearchState :=
  match gain_of_attack game_state max_scout_spawn .SCOUT location,
        gain_of_attack game_state max_demolisher_spawn .DEMOLISHER location,
        gain_of_attack game_state max_interceptor_spawn .INTERCEPTOR location with
  | none, _, _ => .error .typeError
  | some _, none, _ => .error .typeError
  | some _, some _, none => .error .typeError
  | some gain_location_scout, some gain_location_demolisher,
      some gain_location_interceptor =>
    .ok (interceptor_update gain_location_interceptor location
          (demolisher_update gain_location_demolisher location
            (scout_update gain_location_scout location st)))

/-- filter_blocked_locations (lines 300-305). -/
def filter_blocked_locations (locations : List Cell)
    (game_state : GameState) : List Cell :=
  locations.filter (fun location => !game_state.contains_stationary_unit location)

/-- What attempt_to_attack has computed once it reaches line 152: the values
its decision block (lines 155-165) reads.  interceptor_location is
interceptor_deploy_locations[location_index] for the location_index of line
150. -/
structure AttackPlan where
  scout_gain : ℚ
  scout_deploy_location : Option Cell
  demolisher_gain : ℚ
  demolisher_deploy_location : Cell
  interceptor_location : Cell
  opt1_gain : ℚ
  opt2_gain : ℚ
  max_scout : ℕ
  max_demolisher : ℕ
  max_interceptor : ℕ
  deriving DecidableEq

/-- attempt_to_attack, lines 110-151: affordable counts, edge filtering, the
candidate loop, and the two normalizations.  Line 149 divides by
type_cost(SCOUT)[MP] * max_scout_spawn (ZeroDivisionError when the count is 0),
line 150 reads demolisher_deploy_location (UnboundLocalError when the loop
never assigned it) and line 151 divides by the combined combo cost. -/
def attempt_to_attack_pre (game_state : GameState) : Except PyErr AttackPlan :=
  let max_scout_spawn := game_state.number_affordable .SCOUT
  let max_interceptor_spawn := game_state.number_affordable .INTERCEPTOR / 2
  let max_demolisher_spawn := game_state.number_affordable .DEMOLISHER / 2
  let friendly_edges := game_state.bottom_left_edge ++ game_state.bottom_right_edge
  let deploy_locations := filter_blocked_locations friendly_edges game_state
  (deploy_locations.foldlM
      (attack_search_step game_state max_scout_spawn max_demolisher_spawn
        max_interceptor_spawn)
      attack_search_init).bind fun st =>
  (pyDiv st.scout_gain
      (game_state.type_cost_MP .SCOUT * max_scout_spawn)).bind fun opt1_gain =>
  (pyLoad st.demolisher_deploy_location).bind fun demolisher_deploy_location =>
  let location_index : ℕ :=
    if st.interceptor_deploy_locations.1 = demolisher_deploy_location then 1 else 0
  let interceptor_gain :=
    if location_index = 1 then st.interceptor_gains.2 else st.interceptor_gains.1
  let interceptor_location :=
    if location_index = 1 then st.interceptor_deploy_locations.2
    else st.interceptor_deploy_locations.1
  (pyDiv (st.demolisher_gain + interceptor_gain)
      (game_state.type_cost_MP .DEMOLISHER * max_demolisher_spawn +
        game_state.type_cost_MP .INTERCEPTOR * max_interceptor_spawn)).bind
    fun opt2_gain =>
  .ok { scout_gain := st.scout_gain,
        scout_deploy_location := st.scout_deploy_location,
        demolisher_gain := st.demolisher_gain,
        demolisher_deploy_location := demolisher_deploy_location,
        interceptor_location := interceptor_location,
        opt1_gain := opt1_gain, opt2_gain := opt2_gain,
        max_scout := max_scout_spawn, max_demolisher := max_demolisher_spawn,
        max_interceptor := max_interceptor_spawn }

/-- The decision block, lines 155-165: threshold both normalized gains against
minGainPerSPSpent; when both pass, the larger wins with ties going to the
scout; committing the combo issues the demolisher spawn and the interceptor
spawn together.  Reading scout_deploy_location at spawn time can still raise
UnboundLocalError in Python, hence the pyLoad. -/
def attack_decision (p : AttackPlan) : Except PyErr (List SpawnCommand) :=
  if minGainPerSPSpent ≤ p.opt1_gain ∧ minGainPerSPSpent ≤ p.opt2_gain then
    if p.opt2_gain ≤ p.opt1_gain then
      (pyLoad p.scout_deploy_location).bind fun scout_deploy_location =>
        .ok [⟨.SCOUT, scout_deploy_location, p.max_scout⟩]
    else
      .ok [⟨.DEMOLISHER, p.demolisher_deploy_location, p.max_demolisher⟩,
           ⟨.INTERCEPTOR, p.interceptor_location, p.max_interceptor⟩]
  else if minGainPerSPSpent ≤ p.opt1_gain then
    (pyLoad p.scout_deploy_location).bind fun scout_deploy_location =>
      .ok [⟨.SCOUT, scout_deploy_location, p.max_scout⟩]
  else if minGainPerSPSpent ≤ p.opt2_gain then
    .ok [⟨.DEMOLISHER, p.demolisher_deploy_location, p.max_demolisher⟩,
         ⟨.INTERCEPTOR, p.interceptor_location, p.max_interceptor⟩]
  else .ok []

/-- attempt_to_attack, lines 104-165, returning the attempt_spawn calls it
issues (or the Python fault it raises). -/
def attempt_to_attack (game_state : GameState) :
    Except PyErr (List SpawnCommand) :=
  (attempt_to_attack_pre game_state).bind attack_decision

/-- The per-candidate damage estimate inside least_damage_spawn_location
(lines 281-286): walk the path and add turret count times turret per-shot
damage for every path cell. -/
def path_damage (game_state : GameState) (location : Cell) : ℚ :=
  ((game_state.find_path_to_edge location).map (fun path_location =>
    (game_state.get_attackers_count path_location : ℚ) *
      (game_state.unit_stats .TURRET).damage_i)).sum

/-- least_damage_spawn_location (lines 272-289):
location_options[damages.index(min(damages))].  Python's min raises on an
empty list (empty location_options), modelled as none; otherwise min is the
fold of binary min over the list and index finds its first occurrence. -/
def least_damage_spawn_location (game_state : GameState)
    (location_options : List Cell) : Option Cell :=
  let damages := location_options.map (path_damage game_state)
  match damages with
  | [] => none
  | d :: ds => location_options[damages.indexOf (ds.foldl min d)]?

/-- envA with nothing affordable: every max count of attempt_to_attack is 0. -/
def envZero : GameState := { envA with number_affordable := fun _ => 0 }

/-- envA with every edge cell occupied by a stationary unit: the filtered
deploy-location set is empty. -/
def envBlocked : GameState :=
  { envA with contains_stationary_unit := fun _ => true }

/-- envA whose pathfinder finds no route to the edge from anywhere. -/
def envNoPath : GameState := { envA with find_path_to_edge := fun _ => [] }

/-- envA with one turret able to hit every cell (per-shot damage 6): a
demolisher squad of one (5 hp, two sub-frames) takes 12 cumulative damage. -/
def envTurret : GameState := { envA with get_attackers_count := fun _ => 1 }

/-- envA with an opposing unit of 100 health inside attack range of every
cell, and still no turret able to fire: targets but no incoming damage. -/
def envTargets : GameState :=
  { envA with
      get_locations_in_range := fun _ _ => [((9 : ℤ), (9 : ℤ))],
      game_map_at := fun _ => [⟨1, 100⟩] }

/-- Unfolding lemma: gain_of_attack is the path simulation run on the
externally computed path. -/
lemma gain_of_attack_def (game_state : GameState) (number_units : ℕ)
    (unit_type : UnitTypeId) (location : Cell) :
    gain_of_attack game_state number_units unit_type location =
      gain_of_attack_path game_state (game_state.unit_stats unit_type)
        ((game_state.unit_stats .TURRET).damage_i) number_units
        (game_state.find_path_to_edge location) := rfl

/-- Unfolding lemma: on a non-empty path the simulation runs
int(1/speed) sub-frames on the head cell and returns the weighted gain. -/
lemma gain_of_attack_path_cons (game_state : GameState)
    (unit_class : UnitStats) (turret_damage : ℚ) (number_units : ℕ)
    (c : Cell) (rest : List Cell) :
    gain_of_attack_path game_state unit_class turret_damage number_units
        (c :: rest) =
      some ((gain_sim game_state unit_class turret_damage c
            (game_state.get_attackers_count c) number_units
            (Int.toNat ⌊1 / unit_class.speed⌋)).1 * weight_damage_enemy +
        (gain_sim game_state unit_class turret_damage c
            (game_state.get_attackers_count c) number_units
            (Int.toNat ⌊1 / unit_class.speed⌋)).2.2 * weight_score) := rfl

/-- With no turret able to hit the cell and no target health in range, one
sub-frame maps any state with damage 0, full squad health and a nonnegative
remaining count to the same health and the floor-plus-one count. -/
lemma gain_step_no_damage (game_state : GameState) (unit_class : UnitStats)
    (turret_damage : ℚ) (path_location : Cell) (n : ℕ)
    (hh : 0 < unit_class.health) (hdf : 0 ≤ unit_class.damage_f)
    (htgt : total_target_health game_state path_location unit_class.attackRange = 0)
    (x : ℚ) (hx : 0 ≤ x) :
    gain_step game_state unit_class turret_damage path_location 0
        (0, unit_class.health * n, x) =
      (0, unit_class.health * n, (n : ℚ) + 1) := by
  have hmin : min (unit_class.damage_f * x) 0 = 0 :=
    min_eq_right (mul_nonneg hdf hx)
  have hfloor : ((⌊unit_class.health * (n : ℚ) / unit_class.health⌋ : ℤ) : ℚ) + 1
      = (n : ℚ) + 1 := by
    rw [mul_div_cancel_left₀ _ (ne_of_gt hh), Int.floor_natCast]
    norm_cast
  simp [gain_step, htgt, hmin, hfloor]

/-- Iterating the no-damage sub-frame at least once from the initial squad
state lands on damage 0, unchanged total health, and n + 1 remaining units. -/
lemma gain_sim_no_damage (game_state : GameState)
    (unit_class : UnitStats) (turret_damage : ℚ) (path_location : Cell)
    (n : ℕ) (k : ℕ)
    (hh : 0 < unit_class.health) (hdf : 0 ≤ unit_class.damage_f)
    (htgt : total_target_health game_state path_location unit_class.attackRange = 0)
    (hk : 1 ≤ k) :
    gain_sim game_state unit_class turret_damage path_location 0 n k =
      (0, unit_class.health * n, (n : ℚ) + 1) := by
  unfold gain_sim
  obtain ⟨j, rfl⟩ : ∃ j, k = j + 1 := ⟨k - 1, (Nat.succ_pred_eq_of_pos hk).symm⟩
  induction j with
  | zero =>
      simpa using gain_step_no_damage game_state unit_class turret_damage
        path_location n hh hdf htgt (n : ℚ) (Nat.cast_nonneg n)
  | succ i ih =>
      rw [Function.iterate_succ_apply', ih (Nat.le_add_left 1 i)]
      exact gain_step_no_damage game_state unit_class turret_damage
        path_location n hh hdf htgt ((n : ℚ) + 1)
        (by positivity)

/-- A unit with positive speed at most 1 runs at least one sub-frame per cell. -/
lemma one_le_frames (speed : ℚ) (hs0 : 0 < speed) (hs1 : speed ≤ 1) :
    1 ≤ Int.toNat ⌊1 / speed⌋ := by
  have h1 : (1 : ℚ) ≤ 1 / speed := by
    rw [le_div_iff₀ hs0]; simpa using hs1
  have h2 : (1 : ℤ) ≤ ⌊1 / speed⌋ := by
    exact Int.le_floor.mpr (by exact_mod_cast h1)
  omega

/-- Claim C1, counterexample.  In envA the path from (3,10) is the single cell
(3,10), no defender can hit it and no opposing unit is in range, and the start
count is 1, yet gain_of_attack returns 24 = (1+1)*weight_score, not
1*weight_score = 12: the floor(totalHealth/health)+1 recomputation already
counts n+1 survivors after the first sub-frame. -/
theorem C1_counterexample :
    envA.find_path_to_edge ((3 : ℤ), (10 : ℤ)) = [((3 : ℤ), (10 : ℤ))] ∧
    envA.get_attackers_count ((3 : ℤ), (10 : ℤ)) = 0 ∧
    total_target_health envA ((3 : ℤ), (10 : ℤ))
      (envA.unit_stats .SCOUT).attackRange = 0 ∧
    gain_of_attack envA 1 .SCOUT ((3 : ℤ), (10 : ℤ)) = some 24 ∧
    (24 : ℚ) ≠ (1 : ℚ) * weight_score := by
  with_unfolding_all decide

/-- Claim C1 (amended): with start count n ≥ 1, a non-empty path whose cells no
defender can hit and with no opposing unit in attack range, and the real
mobile-unit stat ranges (positive health, positive speed at most one cell per
sub-frame, nonnegative damage), gain_of_attack returns (n + 1) * weight_score:
damage dealt is 0 and the surviving count is n + 1, one more than the start
count, because remaining_units = floor(totalHealth/health) + 1. -/
theorem C1_amended_no_damage_gain (game_state : GameState)
    (number_units : ℕ) (unit_type : UnitTypeId) (location : Cell)
    (c : Cell) (rest : List Cell)
    (hpath : game_state.find_path_to_edge location = c :: rest)
    (hdef : ∀ p ∈ c :: rest, game_state.get_attackers_count p = 0)
    (htgt : ∀ p ∈ c :: rest,
      total_target_health game_state p
        (game_state.unit_stats unit_type).attackRange = 0)
    (hn : 1 ≤ number_units)
    (hh : 0 < (game_state.unit_stats unit_type).health)
    (hs0 : 0 < (game_state.unit_stats unit_type).speed)
    (hs1 : (game_state.unit_stats unit_type).speed ≤ 1)
    (hdf : 0 ≤ (game_state.unit_stats unit_type).damage_f) :
    gain_of_attack game_state number_units unit_type location =
      some (((number_units : ℚ) + 1) * weight_score) := by
  rw [gain_of_attack_def, hpath, gain_of_attack_path_cons,
    hdef c (List.mem_cons_self c rest),
    gain_sim_no_damage game_state _ _ c number_units _ hh hdf
      (htgt c (List.mem_cons_self c rest))
      (one_le_frames _ hs0 hs1)]
  norm_num

/-- Claim C1, witness for the amended theorem, instantiated in envA with one
scout from (3,10). -/
theorem C1_amended_no_damage_gain_witness :
    gain_of_attack envA 1 .SCOUT ((3 : ℤ), (10 : ℤ)) =
      some (((1 : ℕ) + 1 : ℚ) * weight_score) := by
  have h := C1_amended_no_damage_gain envA 1 .SCOUT ((3 : ℤ), (10 : ℤ))
    ((3 : ℤ), (10 : ℤ)) []
    rfl
    (by intro p hp; simp only [List.mem_singleton] at hp; subst hp; rfl)
    (by intro p hp; simp only [List.mem_singleton] at hp; subst hp; rfl)
    (le_refl 1)
    (by with_unfolding_all decide)
    (by with_unfolding_all decide)
    (by with_unfolding_all decide)
    (by with_unfolding_all decide)
  simpa using h

/-- Claim C5, counterexample.  In envTurret one turret (per-shot damage 6)
hits the path cell; a single demolisher (5 health, two sub-frames) has taken
12 cumulative damage after the second sub-frame, which exceeds its squad
health 5, and the recomputed remaining count floor(-7/5) + 1 = -1 is negative;
the returned gain is -12 accordingly. -/
theorem C5_counterexample :
    (gain_sim envTurret (envTurret.unit_stats .DEMOLISHER)
        ((envTurret.unit_stats .TURRET).damage_i) ((3 : ℤ), (10 : ℤ))
        (envTurret.get_attackers_count ((3 : ℤ), (10 : ℤ))) 1 2).2.2 = -1 ∧
    ((-1 : ℚ) < 0) ∧
    gain_of_attack envTurret 1 .DEMOLISHER ((3 : ℤ), (10 : ℤ)) = some (-12) ∧
    (envTurret.unit_stats .DEMOLISHER).health * ((1 : ℕ) : ℚ) <
      2 * ((envTurret.get_attackers_count ((3 : ℤ), (10 : ℤ)) : ℚ) *
        (envTurret.unit_stats .TURRET).damage_i) := by
  with_unfolding_all decide

/-- Claim C5 (amended): after every sub-frame (any k ≥ 1 iterations of the
inner loop, any defender configuration), the remaining-unit count equals
floor(currentTotalHealth / health) + 1, recomputed from the current total
health; it is nonnegative whenever the current total health is at least
-health, but it is not clamped and goes negative as soon as the total health
falls below -health (as the counterexample shows). -/
theorem C5_remaining_units_formula (game_state : GameState)
    (unit_class : UnitStats) (turret_damage : ℚ) (path_location : Cell)
    (num_turrets : ℕ) (n k : ℕ)
    (hh : 0 < unit_class.health) (hk : 1 ≤ k) :
    ((gain_sim game_state unit_class turret_damage path_location
        num_turrets n k).2.2 =
      ((⌊(gain_sim game_state unit_class turret_damage path_location
        num_turrets n k).2.1 / unit_class.health⌋ : ℤ) : ℚ) + 1) ∧
    (-unit_class.health ≤
        (gain_sim game_state unit_class turret_damage path_location
          num_turrets n k).2.1 →
      0 ≤ (gain_sim game_state unit_class turret_damage path_location
          num_turrets n k).2.2) := by
  unfold gain_sim
  obtain ⟨j, rfl⟩ : ∃ j, k = j + 1 := ⟨k - 1, (Nat.succ_pred_eq_of_pos hk).symm⟩
  rw [Function.iterate_succ_apply']
  constructor
  · simp [gain_step]
  · intro hle
    simp only [gain_step] at hle ⊢
    set t := ((gain_step game_state unit_class turret_damage path_location
      num_turrets)^[j] (0, unit_class.health * n, (n : ℚ))).2.1 -
      (num_turrets : ℚ) * turret_damage with ht
    have h1 : (-1 : ℚ) ≤ t / unit_class.health := by
      rw [le_div_iff₀ hh]
      linarith
    have h2 : (-1 : ℤ) ≤ ⌊t / unit_class.health⌋ :=
      Int.le_floor.mpr (by exact_mod_cast h1)
    have h3 : ((-1 : ℤ) : ℚ) ≤ ((⌊t / unit_class.health⌋ : ℤ) : ℚ) := by
      exact_mod_cast h2
    push_cast at h3
    linarith

/-- Claim C5, witness for the amended theorem: the envTurret demolisher run
after two sub-frames. -/
theorem C5_remaining_units_formula_witness :
    ((gain_sim envTurret (envTurret.unit_stats .DEMOLISHER)
        ((envTurret.unit_stats .TURRET).damage_i) ((3 : ℤ), (10 : ℤ)) 1 1 2).2.2 =
      ((⌊(gain_sim envTurret (envTurret.unit_stats .DEMOLISHER)
        ((envTurret.unit_stats .TURRET).damage_i) ((3 : ℤ), (10 : ℤ)) 1 1 2).2.1 /
        (envTurret.unit_stats .DEMOLISHER).health⌋ : ℤ) : ℚ) + 1) ∧
    (-(envTurret.unit_stats .DEMOLISHER).health ≤
        (gain_sim envTurret (envTurret.unit_stats .DEMOLISHER)
          ((envTurret.unit_stats .TURRET).damage_i) ((3 : ℤ), (10 : ℤ)) 1 1 2).2.1 →
      0 ≤ (gain_sim envTurret (envTurret.unit_stats .DEMOLISHER)
          ((envTurret.unit_stats .TURRET).damage_i) ((3 : ℤ), (10 : ℤ)) 1 1 2).2.2) :=
  C5_remaining_units_formula envTurret (envTurret.unit_stats .DEMOLISHER)
    ((envTurret.unit_stats .TURRET).damage_i) ((3 : ℤ), (10 : ℤ)) 1 1 2
    (by with_unfolding_all decide) (by omega)

/-- Claim C6: on a non-empty path the gain depends only on the first path
cell: the code runs int(1/speed) sub-frames there, each adding
min(damage_f * remaining, total opposing target health within attack range of
that cell) to damage_dealt, subtracting turretCount * turretDamage from the
total health and recomputing remaining = floor(totalHealth/health) + 1, and
finally returns damageDealt * weight_damage_enemy +
remaining * weight_score.  The right-hand side mentions only the head cell c,
so the result is independent of every later path cell. -/
theorem C6_first_cell_only (game_state : GameState) (number_units : ℕ)
    (unit_type : UnitTypeId) (location : Cell) (c : Cell) (rest : List Cell)
    (hpath : game_state.find_path_to_edge location = c :: rest) :
    gain_of_attack game_state number_units unit_type location =
      some ((fun final : ℚ × ℚ × ℚ =>
          final.1 * weight_damage_enemy + final.2.2 * weight_score)
        ((fun st : ℚ × ℚ × ℚ =>
            (st.1 + min ((game_state.unit_stats unit_type).damage_f * st.2.2)
                (total_target_health game_state c
                  (game_state.unit_stats unit_type).attackRange),
             st.2.1 - (game_state.get_attackers_count c : ℚ) *
                (game_state.unit_stats .TURRET).damage_i,
             ((⌊(st.2.1 - (game_state.get_attackers_count c : ℚ) *
                (game_state.unit_stats .TURRET).damage_i) /
                (game_state.unit_stats unit_type).health⌋ : ℤ) : ℚ) + 1))^[
            Int.toNat ⌊1 / (game_state.unit_stats unit_type).speed⌋]
          (0, (game_state.unit_stats unit_type).health * number_units,
            (number_units : ℚ)))) := by
  rw [gain_of_attack_def, hpath]
  rfl

/-- Claim C6, witness: five scouts from (3,10) in envA, path [(3,10)]. -/
theorem C6_first_cell_only_witness :
    gain_of_attack envA 5 .SCOUT ((3 : ℤ), (10 : ℤ)) = some 72 := by
  rw [C6_first_cell_only envA 5 .SCOUT ((3 : ℤ), (10 : ℤ)) ((3 : ℤ), (10 : ℤ))
    [] rfl]
  with_unfolding_all decide

/-- Claim C2: in envZero nothing is affordable, so all three max counts are 0,
and attempt_to_attack raises ZeroDivisionError at the opt1_gain normalization
(line 149 divides by type_cost(SCOUT)[MP] * max_scout_spawn = 0) instead of
completing without a fault. -/
theorem C2_zero_affordable_zero_division :
    envZero.number_affordable .SCOUT = 0 ∧
    envZero.number_affordable .DEMOLISHER / 2 = 0 ∧
    envZero.number_affordable .INTERCEPTOR / 2 = 0 ∧
    attempt_to_attack envZero = .error .zeroDivisionError := by
  with_unfolding_all decide

/-- Claim C3: in envBlocked every friendly edge cell is occupied, the filtered
deploy-location set is empty, and attempt_to_attack raises UnboundLocalError
at line 150 (demolisher_deploy_location was never assigned because the
candidate loop ran zero times) instead of terminating normally. -/
theorem C3_empty_deploy_unbound_local :
    filter_blocked_locations
      (envBlocked.bottom_left_edge ++ envBlocked.bottom_right_edge)
      envBlocked = [] ∧
    attempt_to_attack envBlocked = .error .unboundLocalError := by
  with_unfolding_all decide

/-- Claim C4, counterexample.  In envNoPath the pathfinder returns an empty
path everywhere; gain_of_attack returns None (not a float sentinel), and
attempt_to_attack crashes with TypeError at the first gain comparison instead
of excluding the candidate from the argmax. -/
theorem C4_counterexample :
    envNoPath.find_path_to_edge ((3 : ℤ), (10 : ℤ)) = [] ∧
    gain_of_attack envNoPath (envNoPath.number_affordable .SCOUT) .SCOUT
      ((3 : ℤ), (10 : ℤ)) = none ∧
    attempt_to_attack envNoPath = .error .typeError := by
  with_unfolding_all decide

/-- Claim C4 (amended): for a location whose externally computed path is
empty, gain_of_attack returns Python None (no numeric value at all), and when
such a location heads the filtered deploy-location list, attempt_to_attack
raises TypeError at the None-versus-number comparison rather than processing
the candidate. -/
theorem C4_amended_none_and_type_fault (game_state : GameState)
    (number_units : ℕ) (unit_type : UnitTypeId) (location : Cell)
    (hpath : game_state.find_path_to_edge location = []) :
    gain_of_attack game_state number_units unit_type location = none ∧
    ∀ rest : List Cell,
      filter_blocked_locations
        (game_state.bottom_left_edge ++ game_state.bottom_right_edge)
        game_state = location :: rest →
      attempt_to_attack game_state = .error .typeError := by
  constructor
  · rw [gain_of_attack_def, hpath]; rfl
  · intro rest hdeploy
    have hgS : gain_of_attack game_state (game_state.number_affordable .SCOUT)
        .SCOUT location = none := by
      rw [gain_of_attack_def, hpath]; rfl
    have hstep : attack_search_step game_state
        (game_state.number_affordable .SCOUT)
        (game_state.number_affordable .DEMOLISHER / 2)
        (game_state.number_affordable .INTERCEPTOR / 2)
        attack_search_init location = .error .typeError := by
      unfold attack_search_step
      rw [hgS]
    simp only [attempt_to_attack, attempt_to_attack_pre, hdeploy,
      List.foldlM_cons, hstep]
    rfl

/-- Claim C4, witness for the amended theorem: envNoPath with the concrete
deploy list [(3,10), (5,8)]. -/
theorem C4_amended_none_and_type_fault_witness :
    gain_of_attack envNoPath 5 .SCOUT ((3 : ℤ), (10 : ℤ)) = none ∧
    attempt_to_attack envNoPath = .error .typeError := by
  have h := C4_amended_none_and_type_fault envNoPath 5 .SCOUT
    ((3 : ℤ), (10 : ℤ)) rfl
  exact ⟨h.1, h.2 [((5 : ℤ), (8 : ℤ))] (by with_unfolding_all decide)⟩

/-- Claim C10, counterexample.  With an empty squad (number_units = 0), a
non-empty path, no defender able to hit the first cell and demolisher stats
(health 5 > 0), the gain is not weight_score = 12 when an opposing unit is in
range: in the second sub-frame the phantom surviving unit (count
floor(0/5)+1 = 1) deals min(8*1, 100) = 8 damage, so the gain is 20. -/
theorem C10_counterexample :
    envTargets.get_attackers_count ((3 : ℤ), (10 : ℤ)) = 0 ∧
    (0 : ℚ) < (envTargets.unit_stats .DEMOLISHER).health ∧
    envTargets.find_path_to_edge ((3 : ℤ), (10 : ℤ)) =
      [((3 : ℤ), (10 : ℤ))] ∧
    gain_of_attack envTargets 0 .DEMOLISHER ((3 : ℤ), (10 : ℤ)) = some 20 ∧
    (20 : ℚ) ≠ weight_score := by
  with_unfolding_all decide

/-- Claim C10 (amended): with number_units = 0, a non-empty path, no defender
able to hit the first path cell AND no opposing target health within attack
range of it, and real mobile stats (positive health, positive speed at most 1,
nonnegative damage), gain_of_attack returns exactly weight_score: the
surviving-count formula floor(0/health) + 1 counts one phantom unit although
nothing was deployed.  Without the no-target condition the phantom unit also
deals damage in sub-frames after the first, and the gain exceeds
weight_score. -/
theorem C10_amended_phantom_unit_gain (game_state : GameState)
    (unit_type : UnitTypeId) (location : Cell) (c : Cell) (rest : List Cell)
    (hpath : game_state.find_path_to_edge location = c :: rest)
    (hdef : game_state.get_attackers_count c = 0)
    (htgt : total_target_health game_state c
      (game_state.unit_stats unit_type).attackRange = 0)
    (hh : 0 < (game_state.unit_stats unit_type).health)
    (hs0 : 0 < (game_state.unit_stats unit_type).speed)
    (hs1 : (game_state.unit_stats unit_type).speed ≤ 1)
    (hdf : 0 ≤ (game_state.unit_stats unit_type).damage_f) :
    gain_of_attack game_state 0 unit_type location = some weight_score := by
  rw [gain_of_attack_def, hpath, gain_of_attack_path_cons, hdef,
    gain_sim_no_damage game_state _ _ c 0 _ hh hdf htgt
      (one_le_frames _ hs0 hs1)]
  norm_num

/-- Claim C10, witness for the amended theorem: an affordable count of zero
scouts in envA still yields gain weight_score = 12 from (3,10). -/
theorem C10_amended_phantom_unit_gain_witness :
    gain_of_attack envA 0 .SCOUT ((3 : ℤ), (10 : ℤ)) = some weight_score :=
  C10_amended_phantom_unit_gain envA .SCOUT ((3 : ℤ), (10 : ℤ))
    ((3 : ℤ), (10 : ℤ)) [] rfl rfl rfl
    (by with_unfolding_all decide)
    (by with_unfolding_all decide)
    (by with_unfolding_all decide)
    (by with_unfolding_all decide)
/-- The plan attempt_to_attack computes in envA: both candidates evaluated,
scout best gain 72 at (3,10), demolisher best 24 at (3,10), interceptor top
two (3,10) then (5,8); slot 0 collides with the demolisher location so slot 1
is chosen; opt1 = 72/5, opt2 = (24 + 24)/(3 + 1) = 12. -/
def planA : AttackPlan where
  scout_gain := 72
  scout_deploy_location := some ((3 : ℤ), (10 : ℤ))
  demolisher_gain := 24
  demolisher_deploy_location := ((3 : ℤ), (10 : ℤ))
  interceptor_location := ((5 : ℤ), (8 : ℤ))
  opt1_gain := 72 / 5
  opt2_gain := 12
  max_scout := 5
  max_demolisher := 1
  max_interceptor := 1

/-- Claim C7: whenever attempt_to_attack reaches its decision block (the
normalization phase returned a plan, and the scout location was assigned), the
committed deployments follow the threshold-10 policy exactly: if both
normalized scores reach minGainPerSPSpent the larger wins with ties going to
the scout; if exactly one reaches it that one is committed; otherwise nothing
is deployed; and a committed combo issues the demolisher spawn
(max_demolisher units) and the interceptor spawn (max_interceptor units)
together. -/
theorem C7_decision_policy (game_state : GameState) (p : AttackPlan)
    (ls : Cell)
    (hpre : attempt_to_attack_pre game_state = .ok p)
    (hls : p.scout_deploy_location = some ls) :
    attempt_to_attack game_state = .ok
      (if minGainPerSPSpent ≤ p.opt1_gain ∧ minGainPerSPSpent ≤ p.opt2_gain then
        if p.opt2_gain ≤ p.opt1_gain then
          [⟨.SCOUT, ls, p.max_scout⟩]
        else
          [⟨.DEMOLISHER, p.demolisher_deploy_location, p.max_demolisher⟩,
           ⟨.INTERCEPTOR, p.interceptor_location, p.max_interceptor⟩]
      else if minGainPerSPSpent ≤ p.opt1_gain then
        [⟨.SCOUT, ls, p.max_scout⟩]
      else if minGainPerSPSpent ≤ p.opt2_gain then
        [⟨.DEMOLISHER, p.demolisher_deploy_location, p.max_demolisher⟩,
         ⟨.INTERCEPTOR, p.interceptor_location, p.max_interceptor⟩]
      else []) := by
  unfold attempt_to_attack
  rw [hpre]
  show attack_decision p = _
  unfold attack_decision
  rw [hls]
  simp only [pyLoad]
  split_ifs <;> rfl

/-- Claim C7, witness: in envA both scores clear the threshold
(72/5 ≥ 10 and 12 ≥ 10) and the scout score is larger, so only the scout
deployment is committed. -/
theorem C7_decision_policy_witness :
    attempt_to_attack envA = .ok [⟨.SCOUT, ((3 : ℤ), (10 : ℤ)), 5⟩] := by
  have h := C7_decision_policy envA planA ((3 : ℤ), (10 : ℤ))
    (by with_unfolding_all decide) rfl
  rw [h]
  with_unfolding_all decide

set_option maxRecDepth 4000 in
/-- Claim C8, counterexample.  Before the candidate loop runs (and after it,
whenever no candidate was recorded, as with the empty deploy set of
envBlocked), the two interceptor location slots both hold the initialiser
[0, 0]: they reference the same location, contradicting the claimed
at-every-point invariant. -/
theorem C8_counterexample :
    filter_blocked_locations
      (envBlocked.bottom_left_edge ++ envBlocked.bottom_right_edge)
      envBlocked = [] ∧
    (([] : List Cell).foldlM
      (attack_search_step envBlocked (envBlocked.number_affordable .SCOUT)
        (envBlocked.number_affordable .DEMOLISHER / 2)
        (envBlocked.number_affordable .INTERCEPTOR / 2))
      attack_search_init = .ok attack_search_init) ∧
    attack_search_init.interceptor_deploy_locations.1 =
      attack_search_init.interceptor_deploy_locations.2 := by
  with_unfolding_all decide

/-- The invariant the interceptor top-two tracking actually maintains over a
set P of already-processed candidate locations: either no candidate has been
recorded yet (both slots still hold the [0,0] placeholder and both gains the
-999 sentinel), or the two slots are distinct, slot 0 holds a processed
candidate and slot 1 holds a processed candidate or still the placeholder. -/
def interceptor_slots_ok (P : Set Cell) (st : AttackSearchState) : Prop :=
  (st.interceptor_deploy_locations = (((0 : ℤ), (0 : ℤ)), ((0 : ℤ), (0 : ℤ))) ∧
    st.interceptor_gains = (-999, -999)) ∨
  (st.interceptor_deploy_locations.1 ≠ st.interceptor_deploy_locations.2 ∧
    st.interceptor_deploy_locations.1 ∈ P ∧
    (st.interceptor_deploy_locations.2 ∈ P ∨
      st.interceptor_deploy_locations.2 = ((0 : ℤ), (0 : ℤ))))

/-- scout_update does not touch the interceptor fields. -/
lemma scout_update_interceptor_fields (g : ℚ) (l : Cell)
    (st : AttackSearchState) :
    (scout_update g l st).interceptor_gains = st.interceptor_gains ∧
    (scout_update g l st).interceptor_deploy_locations =
      st.interceptor_deploy_locations := by
  unfold scout_update
  split <;> exact ⟨rfl, rfl⟩

/-- demolisher_update does not touch the interceptor fields. -/
lemma demolisher_update_interceptor_fields (g : ℚ) (l : Cell)
    (st : AttackSearchState) :
    (demolisher_update g l st).interceptor_gains = st.interceptor_gains ∧
    (demolisher_update g l st).interceptor_deploy_locations =
      st.interceptor_deploy_locations := by
  unfold demolisher_update
  split <;> exact ⟨rfl, rfl⟩

/-- The invariant only reads the interceptor fields. -/
lemma interceptor_slots_ok_of_fields {P : Set Cell}
    {st st' : AttackSearchState}
    (hg : st'.interceptor_gains = st.interceptor_gains)
    (hl : st'.interceptor_deploy_locations = st.interceptor_deploy_locations)
    (h : interceptor_slots_ok P st) : interceptor_slots_ok P st' := by
  unfold interceptor_slots_ok at h ⊢
  rw [hg, hl]
  exact h

/-- A fresh candidate location (not yet processed and distinct from the
placeholder) preserves the slots invariant through interceptor_update. -/
lemma interceptor_update_ok {P : Set Cell} (g : ℚ) (L : Cell)
    (st : AttackSearchState)
    (hL : L ∉ P) (hL0 : L ≠ ((0 : ℤ), (0 : ℤ)))
    (h : interceptor_slots_ok P st) :
    interceptor_slots_ok (insert L P) (interceptor_update g L st) := by
  unfold interceptor_update
  rcases h with ⟨hloc, hgain⟩ | ⟨hne, h1, h2⟩
  · by_cases hb1 : st.interceptor_gains.1 < g
    · rw [if_pos hb1]
      right
      refine ⟨?_, Set.mem_insert L P, Or.inr ?_⟩
      · show L ≠ st.interceptor_deploy_locations.1
        rw [hloc]
        exact hL0
      · show st.interceptor_deploy_locations.1 = _
        rw [hloc]
    · rw [if_neg hb1]
      have hb2 : ¬ st.interceptor_gains.2 < g := by
        rw [hgain] at hb1 ⊢
        exact hb1
      rw [if_neg hb2]
      left
      exact ⟨hloc, hgain⟩
  · by_cases hb1 : st.interceptor_gains.1 < g
    · rw [if_pos hb1]
      right
      refine ⟨?_, Set.mem_insert L P,
        Or.inl (Set.mem_insert_of_mem L h1)⟩
      show L ≠ st.interceptor_deploy_locations.1
      intro hEq
      exact hL (hEq ▸ h1)
    · rw [if_neg hb1]
      by_cases hb2 : st.interceptor_gains.2 < g
      · rw [if_pos hb2]
        right
        refine ⟨?_, Set.mem_insert_of_mem L h1,
          Or.inl (Set.mem_insert L P)⟩
        show st.interceptor_deploy_locations.1 ≠ L
        intro hEq
        exact hL (hEq ▸ h1)
      · rw [if_neg hb2]
        right
        exact ⟨hne, Set.mem_insert_of_mem L h1,
          h2.imp (Set.mem_insert_of_mem L) id⟩

/-- A successful loop iteration on a fresh candidate preserves the slots
invariant. -/
lemma attack_search_step_ok_inv (game_state : GameState) (ms md mi : ℕ)
    {P : Set Cell} {st st' : AttackSearchState} {L : Cell}
    (h : attack_search_step game_state ms md mi st L = .ok st')
    (hL : L ∉ P) (hL0 : L ≠ ((0 : ℤ), (0 : ℤ)))
    (hinv : interceptor_slots_ok P st) :
    interceptor_slots_ok (insert L P) st' := by
  unfold attack_search_step at h
  cases hS : gain_of_attack game_state ms .SCOUT L with
  | none => rw [hS] at h; exact absurd h (by simp)
  | some gS =>
    cases hD : gain_of_attack game_state md .DEMOLISHER L with
    | none => rw [hS, hD] at h; exact absurd h (by simp)
    | some gD =>
      cases hI : gain_of_attack game_state mi .INTERCEPTOR L with
      | none => rw [hS, hD, hI] at h; exact absurd h (by simp)
      | some gI =>
        rw [hS, hD, hI] at h
        obtain rfl := (Except.ok.inj h).symm
        apply interceptor_update_ok gI L _ hL hL0
        apply interceptor_slots_ok_of_fields
          (demolisher_update_interceptor_fields gD L _).1
          (demolisher_update_interceptor_fields gD L _).2
        exact interceptor_slots_ok_of_fields
          (scout_update_interceptor_fields gS L st).1
          (scout_update_interceptor_fields gS L st).2 hinv

/-- Folding the candidate loop over pairwise-distinct fresh candidates keeps
the slots invariant for some processed set. -/
lemma attack_search_fold_inv (game_state : GameState) (ms md mi : ℕ) :
    ∀ (cands : List Cell) (P : Set Cell) (st st' : AttackSearchState),
      (∀ c ∈ cands, c ∉ P ∧ c ≠ ((0 : ℤ), (0 : ℤ))) → cands.Nodup →
      interceptor_slots_ok P st →
      cands.foldlM (attack_search_step game_state ms md mi) st = .ok st' →
      ∃ Q : Set Cell, interceptor_slots_ok Q st' := by
  intro cands
  induction cands with
  | nil =>
      intro P st st' _ _ hinv hfold
      simp only [List.foldlM_nil] at hfold
      obtain rfl := (Except.ok.inj hfold)
      exact ⟨P, hinv⟩
  | cons L t ih =>
      intro P st st' hfresh hnd hinv hfold
      rw [List.foldlM_cons] at hfold
      cases hstep : attack_search_step game_state ms md mi st L with
      | error e => rw [hstep] at hfold; simp [Bind.bind, Except.bind] at hfold
      | ok st1 =>
          rw [hstep] at hfold
          simp only [Bind.bind, Except.bind] at hfold
          have hinv1 := attack_search_step_ok_inv game_state ms md mi hstep
            (hfresh L (List.mem_cons_self L t)).1
            (hfresh L (List.mem_cons_self L t)).2 hinv
          refine ih (insert L P) st1 st' ?_ (List.Nodup.of_cons hnd) hinv1 hfold
          intro c hc
          refine ⟨?_, (hfresh c (List.mem_cons_of_mem L hc)).2⟩
          intro hcP
          rcases Set.mem_insert_iff.mp hcP with rfl | hcP'
          · exact (List.nodup_cons.mp hnd).1 hc
          · exact (hfresh c (List.mem_cons_of_mem L hc)).1 hcP'

/-- Claim C8 (amended): the two interceptor slots both start at the [0,0]
placeholder, so they reference the same location until the first candidate
with gain above the -999 sentinel is recorded; from then on, over
pairwise-distinct candidate locations none of which equals [0,0] (true of the
real edge cells), the two slots never coincide.  Ranking is by strict
comparison (a tie keeps the earlier-seen candidate ranked first), and the
combo reads slot 0 unless it equals the chosen demolisher location, in which
case it reads slot 1 (line 150). -/
theorem C8_slots_distinct (game_state : GameState) (ms md mi : ℕ)
    (cands : List Cell) (st' : AttackSearchState)
    (h0 : ∀ c ∈ cands, c ≠ ((0 : ℤ), (0 : ℤ))) (hnd : cands.Nodup)
    (hfold : cands.foldlM (attack_search_step game_state ms md mi)
      attack_search_init = .ok st') :
    (st'.interceptor_deploy_locations.1 = ((0 : ℤ), (0 : ℤ)) ∧
      st'.interceptor_deploy_locations.2 = ((0 : ℤ), (0 : ℤ))) ∨
    st'.interceptor_deploy_locations.1 ≠
      st'.interceptor_deploy_locations.2 := by
  obtain ⟨Q, hQ⟩ := attack_search_fold_inv game_state ms md mi cands ∅
    attack_search_init st' (fun c hc => ⟨Set.not_mem_empty c, h0 c hc⟩) hnd
    (Or.inl ⟨rfl, rfl⟩) hfold
  rcases hQ with ⟨hloc, _⟩ | ⟨hne, _, _⟩
  · left
    exact ⟨by rw [hloc], by rw [hloc]⟩
  · right
    exact hne

/-- The final loop state in envA: candidates (3,10) then (5,8); the
interceptor gains tie at 24, so (5,8) only takes slot 1 (the earlier-seen
candidate keeps slot 0), and the two slots are distinct. -/
def searchStateA : AttackSearchState where
  scout_gain := 72
  scout_deploy_location := some ((3 : ℤ), (10 : ℤ))
  demolisher_gain := 24
  demolisher_deploy_location := some ((3 : ℤ), (10 : ℤ))
  interceptor_gains := (24, 24)
  interceptor_deploy_locations := (((3 : ℤ), (10 : ℤ)), ((5 : ℤ), (8 : ℤ)))

/-- Claim C8, witness for the amended theorem: the two-candidate loop of envA
ends with distinct slots (3,10) and (5,8). -/
theorem C8_slots_distinct_witness :
    ([((3 : ℤ), (10 : ℤ)), ((5 : ℤ), (8 : ℤ))].foldlM
      (attack_search_step envA 5 1 1) attack_search_init =
        .ok searchStateA) ∧
    ((searchStateA.interceptor_deploy_locations.1 = ((0 : ℤ), (0 : ℤ)) ∧
      searchStateA.interceptor_deploy_locations.2 = ((0 : ℤ), (0 : ℤ))) ∨
    searchStateA.interceptor_deploy_locations.1 ≠
      searchStateA.interceptor_deploy_locations.2) := by
  constructor
  · with_unfolding_all decide
  · exact C8_slots_distinct envA 5 1 1
      [((3 : ℤ), (10 : ℤ)), ((5 : ℤ), (8 : ℤ))] searchStateA
      (by with_unfolding_all decide) (by with_unfolding_all decide)
      (by with_unfolding_all decide)

/-- Python min over a non-empty list (as the fold of binary min) is a member
of the list. -/
lemma foldl_min_mem (ds : List ℚ) (d : ℚ) : ds.foldl min d ∈ d :: ds := by
  induction ds generalizing d with
  | nil => simp
  | cons a t ih =>
      rw [List.foldl_cons]
      rcases List.mem_cons.mp (ih (min d a)) with h1 | h2
      · rcases min_choice d a with hm | hm
        · rw [h1, hm]
          exact List.mem_cons_self d (a :: t)
        · rw [h1, hm]
          exact List.mem_cons_of_mem d (List.mem_cons_self a t)
      · exact List.mem_cons_of_mem d (List.mem_cons_of_mem a h2)

/-- Python min over a non-empty list is a lower bound of the list. -/
lemma foldl_min_le (ds : List ℚ) (d : ℚ) : ∀ x ∈ d :: ds, ds.foldl min d ≤ x := by
  induction ds generalizing d with
  | nil =>
      intro x hx
      rcases List.mem_singleton.mp hx with rfl
      simp
  | cons a t ih =>
      intro x hx
      rw [List.foldl_cons]
      rcases List.mem_cons.mp hx with h | hx'
      · subst h
        exact le_trans (ih (min x a) (min x a) (List.mem_cons_self _ _))
          (min_le_left x a)
      · rcases List.mem_cons.mp hx' with h | hx''
        · subst h
          exact le_trans (ih (min d x) (min d x) (List.mem_cons_self _ _))
            (min_le_right d x)
        · exact ih (min d a) x (List.mem_cons_of_mem _ hx'')

/-- list.index(a) returns i when a sits at position i and at no earlier
position. -/
lemma indexOf_eq_of_get {α : Type} [DecidableEq α] :
    ∀ (l : List α) (a : α) (i : ℕ) (hi : i < l.length),
      l.get ⟨i, hi⟩ = a →
      (∀ j (hj : j < i), l.get ⟨j, Nat.lt_trans hj hi⟩ ≠ a) →
      l.indexOf a = i := by
  intro l
  induction l with
  | nil => intro a i hi; simp at hi
  | cons b t ih =>
      intro a i hi hget hne
      cases i with
      | zero =>
          simp only [List.get] at hget
          subst hget
          exact List.indexOf_cons_self b t
      | succ k =>
          have hb : b ≠ a := by
            have h0 := hne 0 (Nat.succ_pos k)
            simpa using h0
          have hrec : t.indexOf a = k := by
            refine ih a k (Nat.lt_of_succ_lt_succ hi) ?_ ?_
            · simpa using hget
            · intro j hj
              have := hne (j + 1) (Nat.succ_lt_succ hj)
              simpa using this
          simp [List.indexOf_cons, hb, hrec]

/-- Claim C9: for a non-empty candidate list, least_damage_spawn_location
returns the first candidate attaining the minimum accumulated path damage,
where the damage of a candidate sums attackers-able-to-hit times turret
per-shot damage over its path cells and an empty path contributes 0.  The
index i in the statement is the first argmin: its damage is a lower bound and
every earlier candidate has strictly larger damage. -/
theorem C9_first_argmin (game_state : GameState)
    (location_options : List Cell) (i : ℕ)
    (hi : i < location_options.length)
    (hmin : ∀ j (hj : j < location_options.length),
      path_damage game_state (location_options.get ⟨i, hi⟩) ≤
        path_damage game_state (location_options.get ⟨j, hj⟩))
    (hfirst : ∀ j (hj : j < i),
      path_damage game_state (location_options.get ⟨i, hi⟩) <
        path_damage game_state
          (location_options.get ⟨j, Nat.lt_trans hj hi⟩)) :
    least_damage_spawn_location game_state location_options =
      some (location_options.get ⟨i, hi⟩) ∧
    (∀ l, game_state.find_path_to_edge l = [] →
      path_damage game_state l = 0) := by
  constructor
  · obtain ⟨o, os, hL⟩ : ∃ o os, location_options = o :: os := by
      cases location_options with
      | nil => simp at hi
      | cons o os => exact ⟨o, os, rfl⟩
    subst hL
    have hdef : least_damage_spawn_location game_state (o :: os) =
        ((o :: os)[((o :: os).map (path_damage game_state)).indexOf
          ((os.map (path_damage game_state)).foldl min
            (path_damage game_state o))]?) := rfl
    rw [hdef]
    have hlen : ((o :: os).map (path_damage game_state)).length =
        (o :: os).length := List.length_map _ _
    have hi' : i < ((o :: os).map (path_damage game_state)).length := by
      rw [hlen]; exact hi
    have hgetmap : ∀ j (hj : j < (o :: os).length),
        ((o :: os).map (path_damage game_state)).get
            ⟨j, by rw [hlen]; exact hj⟩ =
          path_damage game_state ((o :: os).get ⟨j, hj⟩) := by
      intro j hj
      simp only [List.get_eq_getElem, ← List.map_cons, List.getElem_map]
    have hmem : (os.map (path_damage game_state)).foldl min
        (path_damage game_state o) ∈
          (o :: os).map (path_damage game_state) := by
      have h := foldl_min_mem (os.map (path_damage game_state))
        (path_damage game_state o)
      simpa using h
    have hle : ∀ x ∈ (o :: os).map (path_damage game_state),
        (os.map (path_damage game_state)).foldl min
          (path_damage game_state o) ≤ x := by
      intro x hx
      apply foldl_min_le
      simpa using hx
    have hgi : ((o :: os).map (path_damage game_state)).get ⟨i, hi'⟩ =
        (os.map (path_damage game_state)).foldl min
          (path_damage game_state o) := by
      apply le_antisymm
      · obtain ⟨x, hxL, hxm⟩ := List.mem_map.mp hmem
        obtain ⟨⟨j, hj⟩, hjx⟩ := List.mem_iff_get.mp hxL
        rw [hgetmap i hi, ← hxm, ← hjx]
        exact hmin j hj
      · exact hle _ (List.get_mem _ _ _)
    have hm_eq : (os.map (path_damage game_state)).foldl min
        (path_damage game_state o) =
          path_damage game_state ((o :: os).get ⟨i, hi⟩) := by
      rw [← hgi, hgetmap i hi]
    have hidx : ((o :: os).map (path_damage game_state)).indexOf
        ((os.map (path_damage game_state)).foldl min
          (path_damage game_state o)) = i := by
      apply indexOf_eq_of_get _ _ i hi' hgi
      intro j hj
      have hj' : j < (o :: os).length := Nat.lt_trans hj hi
      rw [hgetmap j hj', hm_eq]
      exact ne_of_gt (hfirst j hj)
    rw [hidx, List.getElem?_eq_getElem hi]
    simp [List.get_eq_getElem]
  · intro l hl
    simp [path_damage, hl]

/-- Claim C9, witness: in envA both candidates take damage 0, so the first,
(3,10), is returned. -/
theorem C9_first_argmin_witness :
    least_damage_spawn_location envA
      [((3 : ℤ), (10 : ℤ)), ((5 : ℤ), (8 : ℤ))] = some ((3 : ℤ), (10 : ℤ)) ∧
    (∀ l, envA.find_path_to_edge l = [] → path_damage envA l = 0) :=
  C9_first_argmin envA [((3 : ℤ), (10 : ℤ)), ((5 : ℤ), (8 : ℤ))] 0
    (by with_unfolding_all decide)
    (by
      intro j hj
      simp only [List.length_cons, List.length_nil] at hj
      interval_cases j
      · exact le_refl _
      · show path_damage envA ((3 : ℤ), (10 : ℤ)) ≤
          path_damage envA ((5 : ℤ), (8 : ℤ))
        with_unfolding_all decide)
    (fun j hj => absurd hj (Nat.not_lt_zero j))
